import Mathlib

/-!
# HID transport of the CFU stand-alone tool (`HidCommands.h`)

Shallow embedding of the static member functions of `HidCommands`:
`SetOutputReport`, `GetFeatureReport`, `ReadOverlapped`,
`AsynchReadThreadProc` and `PopulateReportId`.

Conventions of the embedding

* A byte, a handle, a usage code and a Win32 error code are natural numbers.
* Every function of the Windows HID driver and of the C runtime that the
  code calls is a field of an environment record (`Platform` for the
  synchronous calls, `ReadEnv` for the reader thread); the embedded function
  additionally returns the list of calls it made, in program order.
* `printf`/`wprintf` output and the release of temporary arrays
  (`SAFE_DELETEA`) have no effect on any value that is modelled.
* `new T[n]` is taken to succeed (standard `new` never yields `NULL`), so the
  `NULL` checks that follow it are never taken.
-/

namespace HidCommands

/-! ## Data model -/

abbrev Byte := Nat
abbrev HANDLE := Nat
abbrev USAGE := Nat
abbrev NTSTATUS := Int
abbrev PHIDP_PREPARSED_DATA := Option Nat

/-- The macro `NT_SUCCESS(Status)`, that is `((NTSTATUS)(Status)) >= 0`. -/
def NT_SUCCESS (status : NTSTATUS) : Bool := decide (0 ≤ status)

inductive HIDP_REPORT_TYPE where
  | HidP_Input
  | HidP_Output
  | HidP_Feature
  deriving DecidableEq, Repr, Inhabited

/-- The fields of `HIDP_CAPS` that `HidCommands` reads. -/
structure HIDP_CAPS where
  InputReportByteLength : Nat
  OutputReportByteLength : Nat
  FeatureReportByteLength : Nat
  NumberInputValueCaps : Nat
  NumberOutputValueCaps : Nat
  NumberFeatureValueCaps : Nat
  deriving DecidableEq, Repr, Inhabited

/-- The fields of `HIDP_VALUE_CAPS` that identify a value capability. -/
structure HIDP_VALUE_CAPS where
  UsagePage : USAGE
  ReportID : Byte
  Usage : USAGE
  deriving DecidableEq, Repr, Inhabited

structure HidReportIdInfo where
  id : Byte
  Usage : USAGE
  size : Nat
  inOutFeature : HIDP_REPORT_TYPE
  Name : String
  deriving DecidableEq, Repr, Inhabited

structure HID_DEVICE where
  hDevice : HANDLE
  PreparsedData : PHIDP_PREPARSED_DATA
  Caps : HIDP_CAPS
  InputReportBuffer : Option (List Byte)
  deriving DecidableEq, Repr, Inhabited

/-- What `HidP_GetSpecificValueCaps` hands back: its status and the matching
value capabilities it stored at the start of the caller's array; the count it
writes through `ValueCapsLength` is the length of that list. -/
structure ValueCapsQuery where
  status : NTSTATUS
  ValueCaps : List HIDP_VALUE_CAPS
  deriving DecidableEq, Repr, Inhabited

/-- A call made to the HID driver. -/
inductive DriverCall where
  | HidD_GetPreparsedData (hDevice : HANDLE)
  | HidP_GetCaps (PreparsedData : PHIDP_PREPARSED_DATA)
  | HidP_GetSpecificValueCaps (ReportType : HIDP_REPORT_TYPE) (UsagePage : USAGE)
      (LinkCollection : Nat) (Usage : USAGE) (ValueCapsLength : Nat)
      (PreparsedData : PHIDP_PREPARSED_DATA)
  | HidD_GetFeature (hDevice : HANDLE) (ReportBuffer : List Byte) (ReportBufferLength : Nat)
  | HidD_SetOutputReport (hDevice : HANDLE) (ReportBuffer : List Byte) (ReportBufferLength : Nat)
  deriving DecidableEq, Repr

/-- The driver and runtime behind the synchronous calls. Each field is the
function of the same name, given its input arguments (and, for an in/out
argument, its value on entry) and returning its return value and what it left
in its out arguments. -/
structure Platform where
  HidD_GetPreparsedData : HANDLE → PHIDP_PREPARSED_DATA → Bool × PHIDP_PREPARSED_DATA
  HidP_GetCaps : PHIDP_PREPARSED_DATA → HIDP_CAPS → NTSTATUS × HIDP_CAPS
  HidP_GetSpecificValueCaps :
    HIDP_REPORT_TYPE → USAGE → Nat → USAGE → Nat → PHIDP_PREPARSED_DATA → ValueCapsQuery
  HidD_GetFeature : HANDLE → List Byte → Nat → Bool × List Byte
  HidD_SetOutputReport : HANDLE → List Byte → Nat → Bool
  /-- Indeterminate content of freshly allocated memory, byte by byte. -/
  heap : Nat → Byte
  /-- Whether the C runtime's invalid-parameter handler returns to the caller
  (an installed handler may); the default handler ends the process. -/
  invalidParameterHandlerReturns : Bool

/-- Library `memset(dest, c, count)` on a buffer that holds at least `count`
bytes: the first `count` bytes become `c`. -/
def memset (dest : List Byte) (c : Byte) (count : Nat) : List Byte :=
  List.replicate count c ++ dest.drop count

def ERANGE : Nat := 34

/-- Library `memcpy_s(dest, destSize, src, count)` of the Microsoft C runtime
for non-null `dest` and `src`: the error code and the destination afterwards,
or `none` when the process is ended. With `destSize < count` nothing is
copied, the destination's `destSize` bytes are zeroed and the
invalid-parameter handler is invoked; if that handler returns
(`handlerReturns`), `memcpy_s` returns `ERANGE`, otherwise the process ends
there. -/
def memcpy_s (handlerReturns : Bool) (dest : List Byte) (destSize : Nat) (src : List Byte)
    (count : Nat) : Option (Nat × List Byte) :=
  if count = 0 then some (0, dest)
  else if destSize < count then
    if handlerReturns then some (ERANGE, memset dest 0 destSize) else none
  else some (0, src.take count ++ dest.drop count)

/-- The array `new char[n]`: `n` bytes of indeterminate content. -/
def newCharArray (heap : Nat → Byte) (n : Nat) : List Byte :=
  (List.range n).map heap

/-! ## `SetOutputReport` -/

structure SetOutputResult where
  fSucceeded : Bool
  calls : List DriverCall
  deriving DecidableEq, Repr

def SetOutputReport (p : Platform) (Device : HID_DEVICE) (reportBuffer : List Byte)
    (reportLength : Nat) : SetOutputResult :=
  let fSucceeded := p.HidD_SetOutputReport Device.hDevice reportBuffer reportLength
  { fSucceeded := fSucceeded
    calls := [DriverCall.HidD_SetOutputReport Device.hDevice reportBuffer reportLength] }

/-! ## `PopulateReportId` -/

structure PopulateResult where
  ret : Bool
  device : HID_DEVICE
  ReportSettings : HidReportIdInfo
  calls : List DriverCall
  deriving DecidableEq, Repr

def PopulateReportId (p : Platform) (device : HID_DEVICE) (ReportSettings : HidReportIdInfo) :
    PopulateResult :=
  let got := p.HidD_GetPreparsedData device.hDevice device.PreparsedData
  let device := { device with PreparsedData := got.2 }
  let calls := [DriverCall.HidD_GetPreparsedData device.hDevice]
  if !got.1 then
    { ret := false, device := device, ReportSettings := ReportSettings, calls := calls }
  else
    let caps := p.HidP_GetCaps device.PreparsedData device.Caps
    let status := caps.1
    let calls := calls ++ [DriverCall.HidP_GetCaps device.PreparsedData]
    let device := { device with Caps := caps.2 }
    if !NT_SUCCESS status then
      { ret := false, device := device, ReportSettings := ReportSettings, calls := calls }
    else
      -- UINT16 capCount = feature + input + output value capabilities
      let capCount :=
        (device.Caps.NumberFeatureValueCaps +
          device.Caps.NumberInputValueCaps +
          device.Caps.NumberOutputValueCaps) % 65536
      let query :=
        p.HidP_GetSpecificValueCaps ReportSettings.inOutFeature 0 0 ReportSettings.Usage
          capCount device.PreparsedData
      let calls := calls ++
        [DriverCall.HidP_GetSpecificValueCaps ReportSettings.inOutFeature 0 0
          ReportSettings.Usage capCount device.PreparsedData]
      let valCaps := query.ValueCaps
      let status := query.status
      let capCount := valCaps.length
      if !NT_SUCCESS status || capCount == 0 then
        { ret := false, device := device, ReportSettings := ReportSettings, calls := calls }
      else
        { ret := true
          device := device
          ReportSettings := { ReportSettings with id := (valCaps.headD default).ReportID }
          calls := calls }

/-- The value-capability query that `PopulateReportId` issues for `device`
and `ReportSettings`, after the descriptor and the capabilities were read. -/
def populateQuery (p : Platform) (device : HID_DEVICE) (ReportSettings : HidReportIdInfo) :
    ValueCapsQuery :=
  let pd := (p.HidD_GetPreparsedData device.hDevice device.PreparsedData).2
  let caps := (p.HidP_GetCaps pd device.Caps).2
  p.HidP_GetSpecificValueCaps ReportSettings.inOutFeature 0 0 ReportSettings.Usage
    ((caps.NumberFeatureValueCaps + caps.NumberInputValueCaps + caps.NumberOutputValueCaps)
      % 65536) pd

/-- Descriptor and capability retrieval both succeed on `device`. -/
def retrievalSucceeds (p : Platform) (device : HID_DEVICE) : Bool :=
  (p.HidD_GetPreparsedData device.hDevice device.PreparsedData).1 &&
  NT_SUCCESS
    (p.HidP_GetCaps (p.HidD_GetPreparsedData device.hDevice device.PreparsedData).2
      device.Caps).1

/-! ## `GetFeatureReport` -/

structure GetFeatureResult where
  fSucceeded : Bool
  /-- The caller's buffer afterwards (`none` for a `NULL` pointer). -/
  reportBuffer : Option (List Byte)
  reportLength : Nat
  calls : List DriverCall
  deriving DecidableEq, Repr

/-- The function `GetFeatureReport`; `none` when the process is ended inside
`memcpy_s`. The caller's `reportBuffer` is `none` for `NULL` and otherwise
holds at least `maxReportSize` bytes. -/
def GetFeatureReport (p : Platform) (Device : HID_DEVICE) (UsagePage Usage : USAGE)
    (reportBuffer : Option (List Byte)) (maxReportSize : Nat) : Option GetFeatureResult :=
  let featureValCapsCount := Device.Caps.NumberFeatureValueCaps
  match reportBuffer with
  | none =>
    some { fSucceeded := false, reportBuffer := none, reportLength := 0, calls := [] }
  | some reportBuffer =>
    let reportBuffer := memset reportBuffer 0 maxReportSize
    -- make sure we have at least 1 feature capability
    if featureValCapsCount == 0 then
      some { fSucceeded := false, reportBuffer := some reportBuffer, reportLength := 0,
             calls := [] }
    else
      let query :=
        p.HidP_GetSpecificValueCaps HIDP_REPORT_TYPE.HidP_Feature UsagePage 0 Usage
          featureValCapsCount Device.PreparsedData
      let calls :=
        [DriverCall.HidP_GetSpecificValueCaps HIDP_REPORT_TYPE.HidP_Feature UsagePage 0 Usage
          featureValCapsCount Device.PreparsedData]
      let valCaps := query.ValueCaps
      let status := query.status
      let featureValCapsCount := valCaps.length
      if !NT_SUCCESS status then
        some { fSucceeded := false, reportBuffer := some reportBuffer, reportLength := 0,
               calls := calls }
      else if featureValCapsCount != 1 then
        some { fSucceeded := false, reportBuffer := some reportBuffer, reportLength := 0,
               calls := calls }
      else
        let featureReportByteLengthMax := Device.Caps.FeatureReportByteLength
        let readReportBuffer := newCharArray p.heap featureReportByteLengthMax
        let readReportBuffer := readReportBuffer.set 0 (valCaps.headD default).ReportID
        let got := p.HidD_GetFeature Device.hDevice readReportBuffer featureReportByteLengthMax
        let calls := calls ++
          [DriverCall.HidD_GetFeature Device.hDevice readReportBuffer featureReportByteLengthMax]
        if !got.1 then
          some { fSucceeded := false, reportBuffer := some reportBuffer, reportLength := 0,
                 calls := calls }
        else
          let readReportBuffer := got.2
          let reportLength := Device.Caps.FeatureReportByteLength
          -- the value `memcpy_s` returns is not looked at
          match memcpy_s p.invalidParameterHandlerReturns reportBuffer maxReportSize
              readReportBuffer reportLength with
          | none => none
          | some copied =>
            some { fSucceeded := true, reportBuffer := some copied.2,
                   reportLength := reportLength, calls := calls }

/-- The value-capability query that `GetFeatureReport` issues. -/
def featureQuery (p : Platform) (Device : HID_DEVICE) (UsagePage Usage : USAGE) :
    ValueCapsQuery :=
  p.HidP_GetSpecificValueCaps HIDP_REPORT_TYPE.HidP_Feature UsagePage 0 Usage
    Device.Caps.NumberFeatureValueCaps Device.PreparsedData

/-- The buffer `GetFeatureReport` hands to `HidD_GetFeature` when the usage
resolved to a capability with report ID `r`. -/
def featureRequest (p : Platform) (Device : HID_DEVICE) (r : Byte) : List Byte :=
  (newCharArray p.heap Device.Caps.FeatureReportByteLength).set 0 r

/-- Whether a driver call is a feature-report read. -/
def DriverCall.isGetFeature : DriverCall → Bool
  | DriverCall.HidD_GetFeature _ _ _ => true
  | _ => false

/-! ## The asynchronous reader: `ReadOverlapped` and `AsynchReadThreadProc` -/

def READ_THREAD_TIMEOUT_MS : Nat := 1000
def INFINITE_READS : Nat := 4294967295
def ERROR_IO_PENDING : Nat := 997
def ERROR_OPERATION_ABORTED : Nat := 995
def WAIT_OBJECT_0 : Nat := 0

structure READ_THREAD_CONTEXT where
  HidDevice : HID_DEVICE
  NumberOfReads : Nat
  TerminateThread : Bool
  readEvent : HANDLE
  deriving DecidableEq, Repr, Inhabited

/-- What the reader thread does to the outside, in program order. -/
inductive Action where
  | ReadFile (hFile : HANDLE) (nNumberOfBytesToRead : Nat) (hEvent : HANDLE)
  | SetEvent (hEvent : HANDLE)
  | WaitForSingleObject (hHandle : HANDLE) (dwMilliseconds : Nat)
  | GetOverlappedResult (hFile : HANDLE)
  /-- A read of `Context->TerminateThread` and the value it saw. -/
  | LoadTerminateThread (value : Bool)
  deriving DecidableEq, Repr

def Action.isReadFile : Action → Bool
  | Action.ReadFile _ _ _ => true
  | _ => false

def Action.isSetEvent : Action → Bool
  | Action.SetEvent _ => true
  | _ => false

/-- Outcome of one `ReadFile` submission: its return value and the value
`GetLastError()` gives after it. -/
structure ReadFileResult where
  readStatus : Bool
  lastError : Nat
  deriving DecidableEq, Repr, Inhabited

/-- The operating system and the owning thread as the reader thread meets
them. The `n`-th call of a function (counting from 0) gets the answer at
index `n`. -/
structure ReadEnv where
  /-- Value of `CreateEvent`, `none` for `NULL`. -/
  CreateEvent : Option HANDLE
  /-- Value of `malloc(size)`, `none` for `NULL`. -/
  malloc : Nat → Option (List Byte)
  ReadFile : Nat → HANDLE → Nat → HANDLE → ReadFileResult
  WaitForSingleObject : Nat → HANDLE → Nat → Nat
  GetOverlappedResult : Nat → HANDLE → Bool
  /-- The store, if any, that the owning thread made to
  `Context->TerminateThread` since the reader's previous read of it; index
  `n` is consulted at the reader's `n`-th read of the flag. -/
  ownerStore : Nat → Option Bool

structure ReadOverlappedResult where
  ret : Bool
  actions : List Action
  deriving DecidableEq, Repr

/-- The function `ReadOverlapped`; `ReadFile` is the submission it performs,
as a function of the file handle, the byte count and the event in the
`OVERLAPPED` structure. -/
def ReadOverlapped (ReadFile : HANDLE → Nat → HANDLE → ReadFileResult)
    (HidDevice : HID_DEVICE) (CompletionEvent : HANDLE) : ReadOverlappedResult :=
  let hEvent := CompletionEvent
  let submitted := ReadFile HidDevice.hDevice HidDevice.Caps.InputReportByteLength hEvent
  let actions :=
    [Action.ReadFile HidDevice.hDevice HidDevice.Caps.InputReportByteLength hEvent]
  if !submitted.readStatus then
    if ERROR_IO_PENDING == submitted.lastError || ERROR_OPERATION_ABORTED == submitted.lastError
    then { ret := true, actions := actions }
    else { ret := false, actions := actions }
  else
    { ret := true, actions := actions ++ [Action.SetEvent CompletionEvent] }

/-- Locals of `AsynchReadThreadProc`, the shared context, how many times each
outside function was called so far, and the actions so far. -/
structure ThreadState where
  Context : READ_THREAD_CONTEXT
  readResult : Bool
  waitStatus : Nat
  reads : Nat
  waits : Nat
  results : Nat
  loads : Nat
  trace : List Action
  deriving DecidableEq, Repr

/-- One evaluation of `Context->TerminateThread`: the owning thread's store
since the last read, if any, has landed in the context; the reader reads. -/
def loadTerminateThread (env : ReadEnv) (s : ThreadState) : Bool × ThreadState :=
  let Context :=
    match env.ownerStore s.loads with
    | some b => { s.Context with TerminateThread := b }
    | none => s.Context
  (Context.TerminateThread,
    { s with Context := Context, loads := s.loads + 1,
             trace := s.trace ++ [Action.LoadTerminateThread Context.TerminateThread] })

/-- The loop `while (!Context->TerminateThread) { ... }`, at most `fuel`
evaluations of its condition. The first component tells whether the loop was
left (`false`: the fuel ran out inside it). -/
def waitLoop (env : ReadEnv) (completionEvent : HANDLE) : Nat → ThreadState → Bool × ThreadState
  | 0, s => (false, s)
  | fuel + 1, s =>
    let l := loadTerminateThread env s
    if l.1 then (true, l.2)
    else
      let s := l.2
      let waitStatus := env.WaitForSingleObject s.waits completionEvent READ_THREAD_TIMEOUT_MS
      let s := { s with waitStatus := waitStatus, waits := s.waits + 1,
                        trace := s.trace ++
                          [Action.WaitForSingleObject completionEvent READ_THREAD_TIMEOUT_MS] }
      if WAIT_OBJECT_0 == waitStatus then
        let readResult := env.GetOverlappedResult s.results s.Context.HidDevice.hDevice
        (true,
          { s with readResult := readResult, results := s.results + 1,
                   trace := s.trace ++
                     [Action.GetOverlappedResult s.Context.HidDevice.hDevice,
                      Action.SetEvent s.Context.readEvent] })
      else waitLoop env completionEvent fuel s

/-- The loop `do { ... } while (1)`, at most `fuel` rounds. The first
component is the value the thread procedure returns once the loop is left
(`none`: the fuel ran out and the thread is still in the loop). -/
def readLoop (env : ReadEnv) (completionEvent : HANDLE) :
    Nat → ThreadState → Option Nat × ThreadState
  | 0, s => (none, s)
  | fuel + 1, s =>
    let ro := ReadOverlapped (env.ReadFile s.reads) s.Context.HidDevice completionEvent
    let s := { s with readResult := ro.ret, reads := s.reads + 1,
                      trace := s.trace ++ ro.actions }
    let w := if s.readResult then waitLoop env completionEvent fuel s else (true, s)
    if !w.1 then (none, w.2)
    else
      let l := loadTerminateThread env w.2
      if l.1 then (some 0, l.2)
      else readLoop env completionEvent fuel l.2

structure ThreadResult where
  /-- Value returned by the thread procedure, `none` while it still runs. -/
  returned : Option Nat
  Context : READ_THREAD_CONTEXT
  trace : List Action
  deriving DecidableEq, Repr

def initialThreadState (Context : READ_THREAD_CONTEXT) : ThreadState :=
  { Context := Context, readResult := false, waitStatus := 0,
    reads := 0, waits := 0, results := 0, loads := 0, trace := [] }

/-- The function `AsynchReadThreadProc`, run for at most `fuel` rounds of its
loops. -/
def AsynchReadThreadProc (env : ReadEnv) (Context : READ_THREAD_CONTEXT) (fuel : Nat) :
    ThreadResult :=
  match env.CreateEvent with
  | none => { returned := some 0, Context := Context, trace := [] }
  | some completionEvent =>
    let InputReportBuffer := env.malloc Context.HidDevice.Caps.InputReportByteLength
    let Context :=
      { Context with HidDevice := { Context.HidDevice with InputReportBuffer := InputReportBuffer } }
    match InputReportBuffer with
    | none => { returned := some 4294967295, Context := Context, trace := [] }
    | some _ =>
      let r := readLoop env completionEvent fuel (initialThreadState Context)
      { returned := r.1, Context := r.2.Context, trace := r.2.trace }

/-- Number of reads the thread submitted. -/
def submitted (trace : List Action) : Nat := trace.countP Action.isReadFile

/-- Number of reports the thread delivered: signals of `readEvent`. -/
def delivered (readEvent : HANDLE) (trace : List Action) : Nat :=
  trace.count (Action.SetEvent readEvent)

/-! ## Device stubs used to exercise the functions -/

def HIDP_STATUS_SUCCESS : NTSTATUS := 0x00110000
/-- The status `HIDP_STATUS_USAGE_NOT_FOUND`, `0xC0110004` as a signed 32-bit value. -/
def HIDP_STATUS_USAGE_NOT_FOUND : NTSTATUS := 0xC0110004 - 0x100000000

/-- Capabilities of the stub: 16-byte feature reports, one feature value capability. -/
def stubCaps : HIDP_CAPS :=
  { InputReportByteLength := 61, OutputReportByteLength := 61, FeatureReportByteLength := 16,
    NumberInputValueCaps := 1, NumberOutputValueCaps := 1, NumberFeatureValueCaps := 1 }

/-- A device with one feature value capability, usage `0x01` with report ID
`0x05`, whose feature read fills the payload with `0x11` and keeps byte 0. -/
def stubPlatform : Platform :=
  { HidD_GetPreparsedData := fun _ _ => (true, some 1)
    HidP_GetCaps := fun _ _ => (HIDP_STATUS_SUCCESS, stubCaps)
    HidP_GetSpecificValueCaps := fun t _ _ usage _ _ =>
      if t = HIDP_REPORT_TYPE.HidP_Feature ∧ usage = 1 then
        { status := HIDP_STATUS_SUCCESS, ValueCaps := [{ UsagePage := 0xFA00, ReportID := 5, Usage := 1 }] }
      else { status := HIDP_STATUS_USAGE_NOT_FOUND, ValueCaps := [] }
    HidD_GetFeature := fun _ buf len => (true, buf.take 1 ++ List.replicate (len - 1) 0x11)
    HidD_SetOutputReport := fun _ _ _ => true
    heap := fun _ => 0xCD
    invalidParameterHandlerReturns := false }

/-- The stub device with an invalid-parameter handler installed that returns. -/
def stubPlatformHandler : Platform :=
  { stubPlatform with invalidParameterHandlerReturns := true }

/-- A device that declares usage `0x01` in two feature value capabilities,
with report IDs `0x05` and `0x07`. -/
def twoMatchPlatform : Platform :=
  { stubPlatform with
    HidP_GetSpecificValueCaps := fun _ _ _ _ _ _ =>
      { status := HIDP_STATUS_SUCCESS
        ValueCaps := [{ UsagePage := 0xFA00, ReportID := 5, Usage := 1 },
                      { UsagePage := 0xFA01, ReportID := 7, Usage := 1 }] } }

def stubDevice : HID_DEVICE :=
  { hDevice := 4, PreparsedData := some 1, Caps := stubCaps, InputReportBuffer := none }

/-- A freshly constructed `HID_DEVICE` around an open handle. -/
def freshDevice : HID_DEVICE :=
  { hDevice := 4, PreparsedData := none, Caps := ⟨0, 0, 0, 0, 0, 0⟩, InputReportBuffer := none }

def versionFeature : HidReportIdInfo :=
  { id := 0, Usage := 1, size := 0, inOutFeature := HIDP_REPORT_TYPE.HidP_Feature, Name := "version" }

def absentFeature : HidReportIdInfo :=
  { id := 0x2A, Usage := 2, size := 0, inOutFeature := HIDP_REPORT_TYPE.HidP_Feature, Name := "absent" }

/-! ## Reader-thread stubs -/

def ERROR_DEVICE_NOT_CONNECTED : Nat := 1167

/-- A context on the stub device with `NumberOfReads = k` and `readEvent = 9`. -/
def readerContext (k : Nat) (terminate : Bool) : READ_THREAD_CONTEXT :=
  { HidDevice := stubDevice, NumberOfReads := k, TerminateThread := terminate, readEvent := 9 }

/-- Every read is accepted as pending and has completed by the first wait;
the owning thread never touches the termination flag. -/
def healthyEnv : ReadEnv :=
  { CreateEvent := some 8
    malloc := fun n => some (List.replicate n 0)
    ReadFile := fun _ _ _ _ => { readStatus := false, lastError := ERROR_IO_PENDING }
    WaitForSingleObject := fun _ _ _ => WAIT_OBJECT_0
    GetOverlappedResult := fun _ _ => true
    ownerStore := fun _ => none }

/-- Every read submission is refused with `ERROR_DEVICE_NOT_CONNECTED`; the
owning thread never touches the termination flag. -/
def unpluggedEnv : ReadEnv :=
  { healthyEnv with
    ReadFile := fun _ _ _ _ => { readStatus := false, lastError := ERROR_DEVICE_NOT_CONNECTED } }

/-- An owning thread outside the data model: it sets the termination flag
before the reader's first look at it and clears it again before the second;
reads complete synchronously. -/
def resettingEnv : ReadEnv :=
  { healthyEnv with
    ReadFile := fun _ _ _ _ => { readStatus := true, lastError := 0 }
    ownerStore := fun n => if n = 0 then some true else if n = 1 then some false else none }

/-- Reads complete synchronously; the owning thread sets the termination
flag after the reader's third look at it. -/
def stoppingEnv : ReadEnv :=
  { healthyEnv with
    ReadFile := fun _ _ _ _ => { readStatus := true, lastError := 0 }
    ownerStore := fun n => if n = 3 then some true else none }

end HidCommands

/-! ## Theorems -/

namespace HidCommands

/-- C1: on a device whose descriptor and capability retrieval succeed,
`PopulateReportId` with a query that succeeds with exactly one match `m`
returns success and stores `m.ReportID` in `ReportSettings.id` (nothing else
of `ReportSettings` changes); with a query that fails or has no match it
returns failure and leaves `ReportSettings`, hence its `id`, unchanged. -/
theorem PopulateReportId_single_match (p : Platform) (device : HID_DEVICE)
    (ReportSettings : HidReportIdInfo) (m : HIDP_VALUE_CAPS)
    (hretr : retrievalSucceeds p device = true) :
    ((NT_SUCCESS (populateQuery p device ReportSettings).status = true ∧
        (populateQuery p device ReportSettings).ValueCaps = [m]) →
      (PopulateReportId p device ReportSettings).ret = true ∧
      (PopulateReportId p device ReportSettings).ReportSettings =
        { ReportSettings with id := m.ReportID }) ∧
    ((NT_SUCCESS (populateQuery p device ReportSettings).status = false ∨
        (populateQuery p device ReportSettings).ValueCaps.length = 0) →
      (PopulateReportId p device ReportSettings).ret = false ∧
      (PopulateReportId p device ReportSettings).ReportSettings = ReportSettings) := by
  simp only [retrievalSucceeds, Bool.and_eq_true] at hretr
  obtain ⟨h1, h2⟩ := hretr
  refine ⟨?_, ?_⟩
  · rintro ⟨hs, hm⟩
    simp only [populateQuery] at hs hm
    simp [PopulateReportId, h1, h2, hs, hm]
  · intro h
    simp only [populateQuery] at h
    rcases h with h | h
    · simp [PopulateReportId, h1, h2, h]
    · simp [PopulateReportId, h1, h2, h]

theorem PopulateReportId_single_match_witness :
    retrievalSucceeds stubPlatform freshDevice = true ∧
    ((PopulateReportId stubPlatform freshDevice versionFeature).ret = true ∧
      (PopulateReportId stubPlatform freshDevice versionFeature).ReportSettings =
        { versionFeature with id := 5 }) ∧
    ((PopulateReportId stubPlatform freshDevice absentFeature).ret = false ∧
      (PopulateReportId stubPlatform freshDevice absentFeature).ReportSettings = absentFeature) :=
  ⟨by decide,
   (PopulateReportId_single_match stubPlatform freshDevice versionFeature
      { UsagePage := 0xFA00, ReportID := 5, Usage := 1 } (by decide)).1 (by decide),
   (PopulateReportId_single_match stubPlatform freshDevice absentFeature
      default (by decide)).2 (by decide)⟩

/-- C2, as stated, fails: on a device whose query for usage `0x01` succeeds
with two matches (report IDs 5 and 7), `PopulateReportId` returns success and
takes the first match's report ID. -/
theorem PopulateReportId_two_matches_counterexample :
    NT_SUCCESS (populateQuery twoMatchPlatform freshDevice versionFeature).status = true ∧
    (populateQuery twoMatchPlatform freshDevice versionFeature).ValueCaps.length = 2 ∧
    (PopulateReportId twoMatchPlatform freshDevice versionFeature).ret = true ∧
    (PopulateReportId twoMatchPlatform freshDevice versionFeature).ReportSettings.id = 5 := by
  decide

/-- C2, amended: on a device whose descriptor and capability retrieval
succeed, `PopulateReportId` with a query that succeeds with two or more
matches returns success and stores the report ID of the first match in
`ReportSettings.id`. -/
theorem PopulateReportId_first_of_many (p : Platform) (device : HID_DEVICE)
    (ReportSettings : HidReportIdInfo) (m m' : HIDP_VALUE_CAPS) (rest : List HIDP_VALUE_CAPS)
    (hretr : retrievalSucceeds p device = true)
    (hstatus : NT_SUCCESS (populateQuery p device ReportSettings).status = true)
    (hmany : (populateQuery p device ReportSettings).ValueCaps = m :: m' :: rest) :
    (PopulateReportId p device ReportSettings).ret = true ∧
    (PopulateReportId p device ReportSettings).ReportSettings =
      { ReportSettings with id := m.ReportID } := by
  simp only [retrievalSucceeds, Bool.and_eq_true] at hretr
  obtain ⟨h1, h2⟩ := hretr
  simp only [populateQuery] at hstatus hmany
  simp [PopulateReportId, h1, h2, hstatus, hmany]

theorem PopulateReportId_first_of_many_witness :
    retrievalSucceeds twoMatchPlatform freshDevice = true ∧
    NT_SUCCESS (populateQuery twoMatchPlatform freshDevice versionFeature).status = true ∧
    (populateQuery twoMatchPlatform freshDevice versionFeature).ValueCaps =
      [{ UsagePage := 0xFA00, ReportID := 5, Usage := 1 },
       { UsagePage := 0xFA01, ReportID := 7, Usage := 1 }] ∧
    (PopulateReportId twoMatchPlatform freshDevice versionFeature).ret = true ∧
    (PopulateReportId twoMatchPlatform freshDevice versionFeature).ReportSettings =
      { versionFeature with id := 5 } :=
  ⟨by decide, by decide, by decide,
   PopulateReportId_first_of_many twoMatchPlatform freshDevice versionFeature
     { UsagePage := 0xFA00, ReportID := 5, Usage := 1 }
     { UsagePage := 0xFA01, ReportID := 7, Usage := 1 } [] (by decide) (by decide) (by decide)⟩

/-- C3: with a non-null caller buffer, `GetFeatureReport` returns failure
with `reportLength = 0` and issues no `HidD_GetFeature` whenever the device
has no feature value capability, or the value-capability query fails, or the
query does not return exactly one match (none, or more than one); and with no
feature value capability it makes no driver call at all. -/
theorem GetFeatureReport_fails_unless_single (p : Platform) (Device : HID_DEVICE)
    (UsagePage Usage : USAGE) (reportBuffer : List Byte) (maxReportSize : Nat) :
    ((Device.Caps.NumberFeatureValueCaps = 0 ∨
        NT_SUCCESS (featureQuery p Device UsagePage Usage).status = false ∨
        (featureQuery p Device UsagePage Usage).ValueCaps.length ≠ 1) →
      ∃ r, GetFeatureReport p Device UsagePage Usage (some reportBuffer) maxReportSize = some r ∧
        r.fSucceeded = false ∧ r.reportLength = 0 ∧
        ∀ c ∈ r.calls, c.isGetFeature = false) ∧
    (Device.Caps.NumberFeatureValueCaps = 0 →
      ∃ r, GetFeatureReport p Device UsagePage Usage (some reportBuffer) maxReportSize = some r ∧
        r.calls = []) := by
  refine ⟨?_, ?_⟩
  · intro h
    by_cases h0 : Device.Caps.NumberFeatureValueCaps = 0
    · simp [GetFeatureReport, h0]
    · simp only [featureQuery] at h
      rcases h with h | h | h
      · exact absurd h h0
      · simp [GetFeatureReport, h0, h, DriverCall.isGetFeature]
      · by_cases hs : NT_SUCCESS (p.HidP_GetSpecificValueCaps HIDP_REPORT_TYPE.HidP_Feature
            UsagePage 0 Usage Device.Caps.NumberFeatureValueCaps Device.PreparsedData).status = true
        · simp [GetFeatureReport, h0, h, hs, DriverCall.isGetFeature]
        · simp [GetFeatureReport, h0, hs, DriverCall.isGetFeature]
  · intro h0
    simp [GetFeatureReport, h0]

theorem GetFeatureReport_fails_unless_single_witness :
    ((featureQuery twoMatchPlatform stubDevice 0xFA00 1).ValueCaps.length ≠ 1 ∧
      ∃ r, GetFeatureReport twoMatchPlatform stubDevice 0xFA00 1
          (some (List.replicate 32 0xAA)) 32 = some r ∧
        r.fSucceeded = false ∧ r.reportLength = 0 ∧ ∀ c ∈ r.calls, c.isGetFeature = false) ∧
    (freshDevice.Caps.NumberFeatureValueCaps = 0 ∧
      ∃ r, GetFeatureReport stubPlatform freshDevice 0xFA00 1
          (some (List.replicate 32 0xAA)) 32 = some r ∧ r.calls = []) :=
  ⟨⟨by decide,
    (GetFeatureReport_fails_unless_single twoMatchPlatform stubDevice 0xFA00 1
      (List.replicate 32 0xAA) 32).1 (Or.inr (Or.inr (by decide)))⟩,
   ⟨rfl,
    (GetFeatureReport_fails_unless_single stubPlatform freshDevice 0xFA00 1
      (List.replicate 32 0xAA) 32).2 rfl⟩⟩

/-- C4: when the device has feature value capabilities, the query resolves
the usage to exactly one of them, with report ID `m.ReportID`, and
`1 ≤ FeatureReportByteLength ≤ maxReportSize`, and the driver's feature read
succeeds leaving `out` (of the length it was given) in the buffer, then
`GetFeatureReport` hands the driver a buffer of `FeatureReportByteLength`
bytes whose byte 0 is the report ID, returns success with
`reportLength = FeatureReportByteLength`, and the caller's buffer holds `out`,
then zeros up to `maxReportSize`, then its bytes beyond `maxReportSize`
untouched. -/
theorem GetFeatureReport_success (p : Platform) (Device : HID_DEVICE)
    (UsagePage Usage : USAGE) (reportBuffer : List Byte) (maxReportSize : Nat)
    (m : HIDP_VALUE_CAPS) (out : List Byte)
    (hcaps : Device.Caps.NumberFeatureValueCaps ≠ 0)
    (hstatus : NT_SUCCESS (featureQuery p Device UsagePage Usage).status = true)
    (hone : (featureQuery p Device UsagePage Usage).ValueCaps = [m])
    (hpos : 1 ≤ Device.Caps.FeatureReportByteLength)
    (hmax : Device.Caps.FeatureReportByteLength ≤ maxReportSize)
    (hread : p.HidD_GetFeature Device.hDevice (featureRequest p Device m.ReportID)
      Device.Caps.FeatureReportByteLength = (true, out))
    (hout : out.length = Device.Caps.FeatureReportByteLength) :
    (featureRequest p Device m.ReportID).length = Device.Caps.FeatureReportByteLength ∧
    (featureRequest p Device m.ReportID)[0]? = some m.ReportID ∧
    ∃ r, GetFeatureReport p Device UsagePage Usage (some reportBuffer) maxReportSize = some r ∧
      r.fSucceeded = true ∧
      r.reportLength = Device.Caps.FeatureReportByteLength ∧
      r.calls.filter DriverCall.isGetFeature =
        [DriverCall.HidD_GetFeature Device.hDevice (featureRequest p Device m.ReportID)
          Device.Caps.FeatureReportByteLength] ∧
      r.reportBuffer =
        some (out ++ List.replicate (maxReportSize - Device.Caps.FeatureReportByteLength) 0 ++
          reportBuffer.drop maxReportSize) := by
  have hlen : (featureRequest p Device m.ReportID).length =
      Device.Caps.FeatureReportByteLength := by
    simp [featureRequest, newCharArray]
  refine ⟨hlen, ?_, ?_⟩
  · have h0 : 0 < (newCharArray p.heap Device.Caps.FeatureReportByteLength).length := by
      simp [newCharArray]; omega
    simp [featureRequest, List.getElem?_set, h0]
  · simp only [featureQuery] at hstatus hone
    simp only [featureRequest] at hread
    have hne : Device.Caps.FeatureReportByteLength ≠ 0 := by omega
    have hnlt : ¬ maxReportSize < Device.Caps.FeatureReportByteLength := by omega
    have htake : List.take Device.Caps.FeatureReportByteLength out = out := by
      rw [← hout]; exact List.take_length out
    have hdrop : List.drop Device.Caps.FeatureReportByteLength
        (memset reportBuffer 0 maxReportSize) =
        List.replicate (maxReportSize - Device.Caps.FeatureReportByteLength) 0 ++
          reportBuffer.drop maxReportSize := by
      have hz : Device.Caps.FeatureReportByteLength - maxReportSize = 0 := by omega
      simp [memset, List.drop_append_eq_append_drop, List.drop_replicate, hz]
    simp [GetFeatureReport, hcaps, hstatus, hone, hread, memcpy_s, hne, hnlt, htake, hdrop,
      featureRequest, DriverCall.isGetFeature]

theorem GetFeatureReport_success_witness :
    (stubDevice.Caps.NumberFeatureValueCaps ≠ 0 ∧
      (featureQuery stubPlatform stubDevice 0xFA00 1).ValueCaps =
        [{ UsagePage := 0xFA00, ReportID := 5, Usage := 1 }] ∧
      stubDevice.Caps.FeatureReportByteLength = 16) ∧
    ((featureRequest stubPlatform stubDevice 5).length = 16 ∧
      (featureRequest stubPlatform stubDevice 5)[0]? = some 5 ∧
      ∃ r, GetFeatureReport stubPlatform stubDevice 0xFA00 1
          (some (List.replicate 32 0xAA)) 32 = some r ∧
        r.fSucceeded = true ∧
        r.reportLength = 16 ∧
        r.calls.filter DriverCall.isGetFeature =
          [DriverCall.HidD_GetFeature 4 (featureRequest stubPlatform stubDevice 5) 16] ∧
        r.reportBuffer =
          some ((5 :: List.replicate 15 0x11) ++ List.replicate (32 - 16) 0 ++
            (List.replicate 32 0xAA).drop 32)) :=
  ⟨⟨by decide, by decide, rfl⟩,
   GetFeatureReport_success stubPlatform stubDevice 0xFA00 1 (List.replicate 32 0xAA) 32
     { UsagePage := 0xFA00, ReportID := 5, Usage := 1 } (5 :: List.replicate 15 0x11)
     (by decide) (by decide) (by decide) (by decide) (by decide) (by decide) (by decide)⟩

/-- C5 fails on the code: the stub device declares 16-byte feature reports
and the caller passes an 8-byte buffer. The driver returns report ID 5 and a
payload of `0x11`. With an invalid-parameter handler that returns,
`GetFeatureReport` reports success with `reportLength = 16`, more than the 8
bytes the caller has, and the caller's buffer is all zeros, not the bytes
the driver returned; with the default handler the process ends inside
`memcpy_s` and the call never returns. -/
theorem GetFeatureReport_short_buffer :
    (stubPlatformHandler.HidD_GetFeature 4 (featureRequest stubPlatformHandler stubDevice 5) 16).2.take 8 =
      [5, 0x11, 0x11, 0x11, 0x11, 0x11, 0x11, 0x11] ∧
    (GetFeatureReport stubPlatformHandler stubDevice 0xFA00 1
        (some (List.replicate 8 0xAA)) 8).map
      (fun r => (r.fSucceeded, r.reportLength, r.reportBuffer)) =
      some (true, 16, some [0, 0, 0, 0, 0, 0, 0, 0]) ∧
    GetFeatureReport stubPlatform stubDevice 0xFA00 1 (some (List.replicate 8 0xAA)) 8 = none := by
  decide

/-- C6: `SetOutputReport` makes exactly one driver call, the write
`HidD_SetOutputReport` with the device's handle and the caller's buffer and
length as given, and returns success exactly when that write succeeded. -/
theorem SetOutputReport_single_write (p : Platform) (Device : HID_DEVICE)
    (reportBuffer : List Byte) (reportLength : Nat) :
    (SetOutputReport p Device reportBuffer reportLength).calls =
      [DriverCall.HidD_SetOutputReport Device.hDevice reportBuffer reportLength] ∧
    ((SetOutputReport p Device reportBuffer reportLength).fSucceeded = true ↔
      p.HidD_SetOutputReport Device.hDevice reportBuffer reportLength = true) ∧
    ((SetOutputReport p Device reportBuffer reportLength).fSucceeded = false ↔
      p.HidD_SetOutputReport Device.hDevice reportBuffer reportLength = false) := by
  simp [SetOutputReport]

/-- C10: `ReadOverlapped` returns failure exactly when the submission failed
with an error code other than `ERROR_IO_PENDING` and
`ERROR_OPERATION_ABORTED`; it signals the completion event exactly when the
submission completed synchronously, and signals no other event; and it
submits exactly one read, on the device's handle, of `InputReportByteLength`
bytes, completing on the completion event. -/
theorem ReadOverlapped_result (ReadFile : HANDLE → Nat → HANDLE → ReadFileResult)
    (HidDevice : HID_DEVICE) (CompletionEvent : HANDLE) :
    ((ReadOverlapped ReadFile HidDevice CompletionEvent).ret = false ↔
      (ReadFile HidDevice.hDevice HidDevice.Caps.InputReportByteLength
          CompletionEvent).readStatus = false ∧
      (ReadFile HidDevice.hDevice HidDevice.Caps.InputReportByteLength
          CompletionEvent).lastError ≠ ERROR_IO_PENDING ∧
      (ReadFile HidDevice.hDevice HidDevice.Caps.InputReportByteLength
          CompletionEvent).lastError ≠ ERROR_OPERATION_ABORTED) ∧
    (Action.SetEvent CompletionEvent ∈ (ReadOverlapped ReadFile HidDevice CompletionEvent).actions ↔
      (ReadFile HidDevice.hDevice HidDevice.Caps.InputReportByteLength
          CompletionEvent).readStatus = true) ∧
    (∀ h, Action.SetEvent h ∈ (ReadOverlapped ReadFile HidDevice CompletionEvent).actions →
      h = CompletionEvent) ∧
    (ReadOverlapped ReadFile HidDevice CompletionEvent).actions.filter Action.isReadFile =
      [Action.ReadFile HidDevice.hDevice HidDevice.Caps.InputReportByteLength CompletionEvent] := by
  cases hs : (ReadFile HidDevice.hDevice HidDevice.Caps.InputReportByteLength
      CompletionEvent).readStatus
  · by_cases hp : ERROR_IO_PENDING =
        (ReadFile HidDevice.hDevice HidDevice.Caps.InputReportByteLength CompletionEvent).lastError
    · simp [ReadOverlapped, hs, ← hp, Action.isReadFile]
    · by_cases ha : ERROR_OPERATION_ABORTED =
          (ReadFile HidDevice.hDevice HidDevice.Caps.InputReportByteLength
            CompletionEvent).lastError
      · simp [ReadOverlapped, hs, ← ha, Action.isReadFile]
      · have hp' := Ne.symm hp
        have ha' := Ne.symm ha
        simp [ReadOverlapped, hs, hp, ha, hp', ha', Action.isReadFile]
  · simp [ReadOverlapped, hs, Action.isReadFile]

end HidCommands

namespace HidCommands

/-! ### The reader thread -/

theorem loadTerminateThread_trace (env : ReadEnv) (s : ThreadState) :
    (loadTerminateThread env s).2.trace =
      s.trace ++ [Action.LoadTerminateThread (loadTerminateThread env s).1] := by
  simp [loadTerminateThread]

theorem loadTerminateThread_flag (env : ReadEnv) (s : ThreadState) :
    (loadTerminateThread env s).2.Context.TerminateThread = (loadTerminateThread env s).1 := by
  simp [loadTerminateThread]

theorem loadTerminateThread_sticky (env : ReadEnv) (s : ThreadState)
    (hmono : ∀ n, env.ownerStore n ≠ some false) (h : s.Context.TerminateThread = true) :
    (loadTerminateThread env s).1 = true := by
  have hm := hmono s.loads
  cases hst : env.ownerStore s.loads with
  | none => simp [loadTerminateThread, hst, h]
  | some b =>
    cases b with
    | false => exact absurd hst hm
    | true => simp [loadTerminateThread, hst]

theorem waitLoop_trace (env : ReadEnv) (ce : HANDLE) :
    ∀ (fuel : Nat) (s : ThreadState), Action.LoadTerminateThread true ∉ s.trace →
      Action.LoadTerminateThread true ∉ (waitLoop env ce fuel s).2.trace ∨
      ((waitLoop env ce fuel s).1 = true ∧
        (waitLoop env ce fuel s).2.Context.TerminateThread = true ∧
        ∃ t, (waitLoop env ce fuel s).2.trace = t ++ [Action.LoadTerminateThread true] ∧
          Action.LoadTerminateThread true ∉ t) := by
  intro fuel
  induction fuel with
  | zero => intro s hs; left; simpa [waitLoop] using hs
  | succ n ih =>
    intro s hs
    cases hl : (loadTerminateThread env s).1 with
    | true =>
      right
      have ht := loadTerminateThread_trace env s
      have hf := loadTerminateThread_flag env s
      rw [hl] at ht hf
      simp only [waitLoop, hl, if_true]
      exact ⟨trivial, hf, s.trace, ht, hs⟩
    | false =>
      have ht := loadTerminateThread_trace env s
      rw [hl] at ht
      by_cases hw : WAIT_OBJECT_0 =
          env.WaitForSingleObject (loadTerminateThread env s).2.waits ce READ_THREAD_TIMEOUT_MS
      · left
        simp [waitLoop, hl, ← hw, ht, hs]
      · have hw' : (WAIT_OBJECT_0 ==
            env.WaitForSingleObject (loadTerminateThread env s).2.waits ce
              READ_THREAD_TIMEOUT_MS) = false := by simpa using hw
        simp only [waitLoop, hl, hw']
        apply ih
        simp [ht, hs]

theorem ReadOverlapped_actions_cases (ReadFile : HANDLE → Nat → HANDLE → ReadFileResult)
    (HidDevice : HID_DEVICE) (ce : HANDLE) :
    (ReadOverlapped ReadFile HidDevice ce).actions =
        [Action.ReadFile HidDevice.hDevice HidDevice.Caps.InputReportByteLength ce] ∨
    (ReadOverlapped ReadFile HidDevice ce).actions =
        [Action.ReadFile HidDevice.hDevice HidDevice.Caps.InputReportByteLength ce,
         Action.SetEvent ce] := by
  unfold ReadOverlapped
  simp only
  split
  · split
    · left; rfl
    · left; rfl
  · right; rfl

theorem ReadOverlapped_no_load (ReadFile : HANDLE → Nat → HANDLE → ReadFileResult)
    (HidDevice : HID_DEVICE) (ce : HANDLE) (b : Bool) :
    Action.LoadTerminateThread b ∉ (ReadOverlapped ReadFile HidDevice ce).actions := by
  rcases ReadOverlapped_actions_cases ReadFile HidDevice ce with h | h <;> simp [h]

/-- One round of `readLoop`, spelled out. -/
theorem readLoop_succ (env : ReadEnv) (ce : HANDLE) (fuel : Nat) (s : ThreadState) :
    readLoop env ce (fuel + 1) s =
      (let ro := ReadOverlapped (env.ReadFile s.reads) s.Context.HidDevice ce
       let s1 : ThreadState :=
         { s with readResult := ro.ret, reads := s.reads + 1, trace := s.trace ++ ro.actions }
       let w := if ro.ret then waitLoop env ce fuel s1 else (true, s1)
       if !w.1 then (none, w.2)
       else if (loadTerminateThread env w.2).1 then (some 0, (loadTerminateThread env w.2).2)
       else readLoop env ce fuel (loadTerminateThread env w.2).2) := by
  rfl

theorem readLoop_trace (env : ReadEnv) (ce : HANDLE)
    (hmono : ∀ n, env.ownerStore n ≠ some false) :
    ∀ (fuel : Nat) (s : ThreadState), Action.LoadTerminateThread true ∉ s.trace →
      ∃ t k, (readLoop env ce fuel s).2.trace =
          t ++ List.replicate k (Action.LoadTerminateThread true) ∧
        Action.LoadTerminateThread true ∉ t := by
  intro fuel
  induction fuel with
  | zero => intro s hs; exact ⟨s.trace, 0, by simp [readLoop], hs⟩
  | succ n ih =>
    intro s hs
    rw [readLoop_succ]
    simp only
    generalize hro : ReadOverlapped (env.ReadFile s.reads) s.Context.HidDevice ce = ro
    have hno : Action.LoadTerminateThread true ∉ ro.actions := by
      rw [← hro]; exact ReadOverlapped_no_load _ _ _ _
    generalize hs1 : ({ s with readResult := ro.ret, reads := s.reads + 1,
                               trace := s.trace ++ ro.actions } : ThreadState) = s1
    have hq1 : Action.LoadTerminateThread true ∉ s1.trace := by
      rw [← hs1]; simp [hs, hno]
    generalize hw : (if ro.ret then waitLoop env ce n s1 else (true, s1)) = w
    have hwcases : Action.LoadTerminateThread true ∉ w.2.trace ∨
        (w.1 = true ∧ w.2.Context.TerminateThread = true ∧
          ∃ t, w.2.trace = t ++ [Action.LoadTerminateThread true] ∧
            Action.LoadTerminateThread true ∉ t) := by
      rw [← hw]
      split
      · exact waitLoop_trace env ce n s1 hq1
      · left; exact hq1
    cases hw1 : w.1 with
    | false =>
      simp only [Bool.not_false, if_true]
      rcases hwcases with h | ⟨h, _⟩
      · exact ⟨w.2.trace, 0, by simp, h⟩
      · rw [hw1] at h; exact absurd h (by decide)
    | true =>
      simp only [Bool.not_true, Bool.false_eq_true, if_false]
      have ht := loadTerminateThread_trace env w.2
      cases hl : (loadTerminateThread env w.2).1 with
      | true =>
        rw [hl] at ht
        simp only [if_true]
        rcases hwcases with h | ⟨_, _, t, htr, htq⟩
        · exact ⟨w.2.trace, 1, by simp [ht], h⟩
        · exact ⟨t, 2, by simp [ht, htr, List.replicate], htq⟩
      | false =>
        rw [hl] at ht
        simp only [Bool.false_eq_true, if_false]
        apply ih
        rcases hwcases with h | ⟨_, hflag, _⟩
        · simp [ht, h]
        · have := loadTerminateThread_sticky env w.2 hmono hflag
          rw [hl] at this; exact absurd this (by decide)

theorem quiet_tail (tr t pre post : List Action) (k : Nat)
    (htr : tr = t ++ List.replicate k (Action.LoadTerminateThread true))
    (hq : Action.LoadTerminateThread true ∉ t)
    (hsplit : tr = pre ++ Action.LoadTerminateThread true :: post) :
    ∀ a ∈ post, a = Action.LoadTerminateThread true := by
  rw [htr] at hsplit
  rcases List.append_eq_append_iff.mp hsplit with ⟨a', h1, h2⟩ | ⟨c', h1, h2⟩
  · intro a ha
    have hmem : a ∈ List.replicate k (Action.LoadTerminateThread true) := by
      rw [h2]; simp [ha]
    exact (List.mem_replicate.mp hmem).2
  · cases c' with
    | nil =>
      simp at h2
      intro a ha
      have hmem : a ∈ List.replicate k (Action.LoadTerminateThread true) := by
        rw [← h2]; simp [ha]
      exact (List.mem_replicate.mp hmem).2
    | cons c cs =>
      simp at h2
      exfalso
      apply hq
      rw [h1, ← h2.1]
      simp

theorem loadTerminateThread_provenance (env : ReadEnv) (f0 : Bool) (s : ThreadState)
    (h : s.Context.TerminateThread = f0 ∨
      ∃ n, env.ownerStore n = some s.Context.TerminateThread) :
    (loadTerminateThread env s).2.Context.TerminateThread = f0 ∨
      ∃ n, env.ownerStore n = some (loadTerminateThread env s).2.Context.TerminateThread := by
  cases hst : env.ownerStore s.loads with
  | none => simpa [loadTerminateThread, hst] using h
  | some b => right; exact ⟨s.loads, by simp [loadTerminateThread, hst]⟩

theorem waitLoop_provenance (env : ReadEnv) (ce : HANDLE) (f0 : Bool) :
    ∀ (fuel : Nat) (s : ThreadState),
      (s.Context.TerminateThread = f0 ∨
        ∃ n, env.ownerStore n = some s.Context.TerminateThread) →
      ((waitLoop env ce fuel s).2.Context.TerminateThread = f0 ∨
        ∃ n, env.ownerStore n = some (waitLoop env ce fuel s).2.Context.TerminateThread) := by
  intro fuel
  induction fuel with
  | zero => intro s hs; simpa [waitLoop] using hs
  | succ n ih =>
    intro s hs
    have hp := loadTerminateThread_provenance env f0 s hs
    cases hl : (loadTerminateThread env s).1 with
    | true => simpa [waitLoop, hl] using hp
    | false =>
      by_cases hw : WAIT_OBJECT_0 =
          env.WaitForSingleObject (loadTerminateThread env s).2.waits ce READ_THREAD_TIMEOUT_MS
      · simpa [waitLoop, hl, ← hw] using hp
      · have hw' : (WAIT_OBJECT_0 ==
            env.WaitForSingleObject (loadTerminateThread env s).2.waits ce
              READ_THREAD_TIMEOUT_MS) = false := by simpa using hw
        simp only [waitLoop, hl, hw']
        apply ih
        exact hp

theorem readLoop_provenance (env : ReadEnv) (ce : HANDLE) (f0 : Bool) :
    ∀ (fuel : Nat) (s : ThreadState),
      (s.Context.TerminateThread = f0 ∨
        ∃ n, env.ownerStore n = some s.Context.TerminateThread) →
      ((readLoop env ce fuel s).2.Context.TerminateThread = f0 ∨
        ∃ n, env.ownerStore n = some (readLoop env ce fuel s).2.Context.TerminateThread) := by
  intro fuel
  induction fuel with
  | zero => intro s hs; simpa [readLoop] using hs
  | succ n ih =>
    intro s hs
    rw [readLoop_succ]
    simp only
    generalize ReadOverlapped (env.ReadFile s.reads) s.Context.HidDevice ce = ro
    generalize hs1 : ({ s with readResult := ro.ret, reads := s.reads + 1,
                               trace := s.trace ++ ro.actions } : ThreadState) = s1
    have hp1 : s1.Context.TerminateThread = f0 ∨
        ∃ n, env.ownerStore n = some s1.Context.TerminateThread := by
      rw [← hs1]; exact hs
    generalize hw : (if ro.ret then waitLoop env ce n s1 else (true, s1)) = w
    have hpw : w.2.Context.TerminateThread = f0 ∨
        ∃ n, env.ownerStore n = some w.2.Context.TerminateThread := by
      rw [← hw]
      split
      · exact waitLoop_provenance env ce f0 n s1 hp1
      · exact hp1
    have hpl := loadTerminateThread_provenance env f0 w.2 hpw
    cases hw1 : w.1 with
    | false => simpa using hpw
    | true =>
      cases hl : (loadTerminateThread env w.2).1 with
      | true => simpa [hl] using hpl
      | false =>
        simp only [Bool.not_true, Bool.false_eq_true, if_false]
        exact ih _ hpl

theorem waitLoop_flag_set (env : ReadEnv) (ce : HANDLE)
    (hmono : ∀ n, env.ownerStore n ≠ some false) (fuel : Nat) (s : ThreadState)
    (hflag : s.Context.TerminateThread = true) :
    waitLoop env ce (fuel + 1) s = (true, (loadTerminateThread env s).2) := by
  simp [waitLoop, loadTerminateThread_sticky env s hmono hflag]

theorem readLoop_flag_set (env : ReadEnv) (ce : HANDLE)
    (hmono : ∀ n, env.ownerStore n ≠ some false) (fuel : Nat) (s : ThreadState)
    (hflag : s.Context.TerminateThread = true) :
    (readLoop env ce (fuel + 2) s).1 = some 0 ∧
    ∃ k, (readLoop env ce (fuel + 2) s).2.trace =
      s.trace ++ (ReadOverlapped (env.ReadFile s.reads) s.Context.HidDevice ce).actions ++
        List.replicate k (Action.LoadTerminateThread true) := by
  rw [readLoop_succ]
  simp only
  generalize ReadOverlapped (env.ReadFile s.reads) s.Context.HidDevice ce = ro
  generalize hs1 : ({ s with readResult := ro.ret, reads := s.reads + 1,
                             trace := s.trace ++ ro.actions } : ThreadState) = s1
  have hf1 : s1.Context.TerminateThread = true := by rw [← hs1]; exact hflag
  have ht1 : s1.trace = s.trace ++ ro.actions := by rw [← hs1]
  have hl1 := loadTerminateThread_sticky env s1 hmono hf1
  have hf2 : (loadTerminateThread env s1).2.Context.TerminateThread = true := by
    rw [loadTerminateThread_flag]; exact hl1
  have hl2 := loadTerminateThread_sticky env _ hmono hf2
  cases hr : ro.ret with
  | true =>
    simp only [if_true]
    rw [waitLoop_flag_set env ce hmono fuel s1 hf1]
    simp only [Bool.not_true, Bool.false_eq_true, if_false, hl2, if_true]
    refine ⟨trivial, 2, ?_⟩
    rw [loadTerminateThread_trace, loadTerminateThread_trace, hl1, hl2, ht1]
    simp [List.replicate]
  | false =>
    simp only [Bool.false_eq_true, if_false, Bool.not_true, hl1, if_true]
    refine ⟨trivial, 1, ?_⟩
    rw [loadTerminateThread_trace, hl1, ht1]
    simp [List.replicate]

/-- The assumption of the next theorem on the owning thread is needed: if the
flag is cleared again between the wait loop's read of it and the read that
follows the loop, the reader submits a new read after having seen the flag
set. -/
theorem AsynchReadThreadProc_flag_cleared_run :
    (AsynchReadThreadProc resettingEnv (readerContext INFINITE_READS false) 2).trace =
      [Action.ReadFile 4 61 8, Action.SetEvent 8,
       Action.LoadTerminateThread true, Action.LoadTerminateThread false,
       Action.ReadFile 4 61 8, Action.SetEvent 8] := by
  decide

/-- C9: when the owning thread only ever sets the termination flag (never
stores `false`), in every run of `AsynchReadThreadProc`, however long, no
read is submitted and no event is signalled (so no report is delivered) after
a read of the flag that saw it set; started with the flag already set, the
thread procedure returns (two rounds of fuel suffice), having submitted at
most one read and, the completion event being an event of its own, delivered
no report; and the flag's value in the context at the end is its initial
value or a value the owning thread stored, never one written by the reader. -/
theorem AsynchReadThreadProc_termination (env : ReadEnv) (Context : READ_THREAD_CONTEXT)
    (fuel : Nat) (hmono : ∀ n, env.ownerStore n ≠ some false) :
    (∀ pre post,
      (AsynchReadThreadProc env Context fuel).trace =
        pre ++ Action.LoadTerminateThread true :: post →
      ∀ a ∈ post, a.isReadFile = false ∧ a.isSetEvent = false) ∧
    (Context.TerminateThread = true → 2 ≤ fuel →
      (AsynchReadThreadProc env Context fuel).returned.isSome = true ∧
      submitted (AsynchReadThreadProc env Context fuel).trace ≤ 1 ∧
      (env.CreateEvent ≠ some Context.readEvent →
        delivered Context.readEvent (AsynchReadThreadProc env Context fuel).trace = 0)) ∧
    ((AsynchReadThreadProc env Context fuel).Context.TerminateThread = Context.TerminateThread ∨
      ∃ n, env.ownerStore n =
        some (AsynchReadThreadProc env Context fuel).Context.TerminateThread) := by
  cases hce : env.CreateEvent with
  | none =>
    refine ⟨?_, ?_, ?_⟩
    · intro pre post h
      simp [AsynchReadThreadProc, hce] at h
    · intro _ _
      simp [AsynchReadThreadProc, hce, submitted, delivered]
    · left; simp [AsynchReadThreadProc, hce]
  | some ce =>
    cases hm : env.malloc Context.HidDevice.Caps.InputReportByteLength with
    | none =>
      refine ⟨?_, ?_, ?_⟩
      · intro pre post h
        simp [AsynchReadThreadProc, hce, hm] at h
      · intro _ _
        simp [AsynchReadThreadProc, hce, hm, submitted, delivered]
      · left; simp [AsynchReadThreadProc, hce, hm]
    | some buf =>
      have hrun : AsynchReadThreadProc env Context fuel =
          { returned := (readLoop env ce fuel (initialThreadState
              { Context with HidDevice :=
                  { Context.HidDevice with InputReportBuffer := some buf } })).1
            Context := (readLoop env ce fuel (initialThreadState
              { Context with HidDevice :=
                  { Context.HidDevice with InputReportBuffer := some buf } })).2.Context
            trace := (readLoop env ce fuel (initialThreadState
              { Context with HidDevice :=
                  { Context.HidDevice with InputReportBuffer := some buf } })).2.trace } := by
        simp [AsynchReadThreadProc, hce, hm]
      rw [hrun]
      generalize hs0 : initialThreadState
        { Context with HidDevice :=
            { Context.HidDevice with InputReportBuffer := some buf } } = s0
      have ht0 : s0.trace = [] := by rw [← hs0]; rfl
      have hf0 : s0.Context.TerminateThread = Context.TerminateThread := by rw [← hs0]; rfl
      refine ⟨?_, ?_, ?_⟩
      · intro pre post h
        obtain ⟨t, k, htr, hq⟩ := readLoop_trace env ce hmono fuel s0 (by simp [ht0])
        intro a ha
        have := quiet_tail _ t pre post k htr hq h a ha
        subst this
        exact ⟨rfl, rfl⟩
      · intro hset hfuel
        obtain ⟨f, rfl⟩ : ∃ f, fuel = f + 2 := ⟨fuel - 2, by omega⟩
        obtain ⟨hret, k, htr⟩ := readLoop_flag_set env ce hmono f s0 (hf0.trans hset)
        simp only [hret, htr, ht0, List.nil_append]
        refine ⟨rfl, ?_, ?_⟩
        · rcases ReadOverlapped_actions_cases (env.ReadFile s0.reads) s0.Context.HidDevice ce
            with h | h <;>
            simp [submitted, h, List.countP_append, List.countP_replicate, Action.isReadFile,
              List.countP_cons]
        · intro hne
          have hne' : ce ≠ Context.readEvent := by
            intro h; apply hne; rw [h]
          rcases ReadOverlapped_actions_cases (env.ReadFile s0.reads) s0.Context.HidDevice ce
            with h | h <;>
            simp [delivered, h, List.count_append, List.count_replicate, List.count_cons, hne']
      · exact readLoop_provenance env ce Context.TerminateThread fuel s0 (Or.inl hf0)

theorem AsynchReadThreadProc_termination_witness :
    (∀ n, stoppingEnv.ownerStore n ≠ some false) ∧
    (readerContext INFINITE_READS true).TerminateThread = true ∧
    (AsynchReadThreadProc stoppingEnv (readerContext INFINITE_READS true) 2).trace =
      [Action.ReadFile 4 61 8, Action.SetEvent 8] ++
        Action.LoadTerminateThread true :: [Action.LoadTerminateThread true] ∧
    (∀ a ∈ [Action.LoadTerminateThread true], a.isReadFile = false ∧ a.isSetEvent = false) ∧
    ((AsynchReadThreadProc stoppingEnv (readerContext INFINITE_READS true) 2).returned.isSome
        = true ∧
      submitted (AsynchReadThreadProc stoppingEnv (readerContext INFINITE_READS true) 2).trace
        ≤ 1 ∧
      (stoppingEnv.CreateEvent ≠ some (readerContext INFINITE_READS true).readEvent →
        delivered (readerContext INFINITE_READS true).readEvent
          (AsynchReadThreadProc stoppingEnv (readerContext INFINITE_READS true) 2).trace = 0)) ∧
    delivered 9 (AsynchReadThreadProc stoppingEnv (readerContext INFINITE_READS true) 2).trace
      = 0 :=
  ⟨fun n => by simp only [stoppingEnv]; split <;> simp,
   rfl,
   by decide,
   (AsynchReadThreadProc_termination stoppingEnv (readerContext INFINITE_READS true) 2
     (fun n => by simp only [stoppingEnv]; split <;> simp)).1
     [Action.ReadFile 4 61 8, Action.SetEvent 8] [Action.LoadTerminateThread true] (by decide),
   (AsynchReadThreadProc_termination stoppingEnv (readerContext INFINITE_READS true) 2
     (fun n => by simp only [stoppingEnv]; split <;> simp)).2.1 rfl (by decide),
   ((AsynchReadThreadProc_termination stoppingEnv (readerContext INFINITE_READS true) 2
     (fun n => by simp only [stoppingEnv]; split <;> simp)).2.1 rfl (by decide)).2.2
     (by decide)⟩

theorem waitLoop_healthy (n : Nat) (s1 : ThreadState)
    (h1 : s1.Context.TerminateThread = false) :
    (waitLoop healthyEnv 8 (n + 1) s1).1 = true ∧
    (waitLoop healthyEnv 8 (n + 1) s1).2.Context = s1.Context ∧
    (waitLoop healthyEnv 8 (n + 1) s1).2.trace =
      s1.trace ++ [Action.LoadTerminateThread false,
        Action.WaitForSingleObject 8 READ_THREAD_TIMEOUT_MS,
        Action.GetOverlappedResult s1.Context.HidDevice.hDevice,
        Action.SetEvent s1.Context.readEvent] := by
  simp [waitLoop, loadTerminateThread, healthyEnv, h1]

theorem loadTerminateThread_untouched (env : ReadEnv) (s2 : ThreadState)
    (hnone : ∀ n, env.ownerStore n = none) (h2 : s2.Context.TerminateThread = false) :
    (loadTerminateThread env s2).1 = false ∧
    (loadTerminateThread env s2).2.Context = s2.Context ∧
    (loadTerminateThread env s2).2.trace = s2.trace ++ [Action.LoadTerminateThread false] := by
  simp [loadTerminateThread, hnone, h2]

theorem readLoop_healthy (n : Nat) :
    ∀ s : ThreadState, s.Context.TerminateThread = false → s.Context.readEvent = 9 →
      (readLoop healthyEnv 8 (n + 1) s).1 = none ∧
      delivered 9 (readLoop healthyEnv 8 (n + 1) s).2.trace = delivered 9 s.trace + n ∧
      submitted (readLoop healthyEnv 8 (n + 1) s).2.trace = submitted s.trace + (n + 1) := by
  induction n with
  | zero =>
    intro s _ _
    simp [readLoop, ReadOverlapped, healthyEnv, waitLoop, delivered, submitted,
      ERROR_IO_PENDING, List.count_append, List.countP_append, Action.isReadFile]
  | succ n ih =>
    intro s hflag hev
    rw [readLoop_succ]
    have hro : ReadOverlapped (healthyEnv.ReadFile s.reads) s.Context.HidDevice 8 =
        { ret := true
          actions := [Action.ReadFile s.Context.HidDevice.hDevice
            s.Context.HidDevice.Caps.InputReportByteLength 8] } := by
      simp [ReadOverlapped, healthyEnv, ERROR_IO_PENDING]
    simp only [hro, if_true]
    generalize hs1 : ({ s with readResult := true, reads := s.reads + 1,
                               trace := s.trace ++
                                 [Action.ReadFile s.Context.HidDevice.hDevice
                                   s.Context.HidDevice.Caps.InputReportByteLength 8] } :
      ThreadState) = s1
    have hc1 : s1.Context = s.Context := by rw [← hs1]
    have ht1 : s1.trace = s.trace ++ [Action.ReadFile s.Context.HidDevice.hDevice
          s.Context.HidDevice.Caps.InputReportByteLength 8] := by rw [← hs1]
    obtain ⟨hw1, hwc, hwt⟩ := waitLoop_healthy n s1 (by rw [hc1]; exact hflag)
    generalize waitLoop healthyEnv 8 (n + 1) s1 = w at hw1 hwc hwt
    obtain ⟨hl1, hlc, hlt⟩ := loadTerminateThread_untouched healthyEnv w.2 (fun _ => rfl)
      (by rw [hwc, hc1]; exact hflag)
    generalize loadTerminateThread healthyEnv w.2 = l at hl1 hlc hlt
    simp only [hw1, hl1, Bool.not_true, Bool.false_eq_true, if_false]
    obtain ⟨h1, h2, h3⟩ := ih l.2 (by rw [hlc, hwc, hc1]; exact hflag)
      (by rw [hlc, hwc, hc1]; exact hev)
    refine ⟨h1, ?_, ?_⟩
    · rw [h2, hlt, hwt, ht1, hc1, hev]
      simp [delivered, List.count_append, List.count_cons]
      omega
    · rw [h3, hlt, hwt, ht1]
      simp [submitted, List.countP_append, List.countP_cons, Action.isReadFile]
      omega

theorem readLoop_unplugged (n : Nat) :
    ∀ s : ThreadState, s.Context.TerminateThread = false →
      (readLoop unpluggedEnv 8 n s).1 = none ∧
      submitted (readLoop unpluggedEnv 8 n s).2.trace = submitted s.trace + n ∧
      delivered 9 (readLoop unpluggedEnv 8 n s).2.trace = delivered 9 s.trace := by
  induction n with
  | zero => intro s _; simp [readLoop]
  | succ n ih =>
    intro s hflag
    rw [readLoop_succ]
    have hro : ReadOverlapped (unpluggedEnv.ReadFile s.reads) s.Context.HidDevice 8 =
        { ret := false
          actions := [Action.ReadFile s.Context.HidDevice.hDevice
            s.Context.HidDevice.Caps.InputReportByteLength 8] } := by
      simp [ReadOverlapped, unpluggedEnv, healthyEnv, ERROR_IO_PENDING,
        ERROR_OPERATION_ABORTED, ERROR_DEVICE_NOT_CONNECTED]
    simp only [hro, Bool.false_eq_true, if_false]
    generalize hs1 : ({ s with readResult := false, reads := s.reads + 1,
                               trace := s.trace ++
                                 [Action.ReadFile s.Context.HidDevice.hDevice
                                   s.Context.HidDevice.Caps.InputReportByteLength 8] } :
      ThreadState) = s1
    have hc1 : s1.Context = s.Context := by rw [← hs1]
    have ht1 : s1.trace = s.trace ++ [Action.ReadFile s.Context.HidDevice.hDevice
          s.Context.HidDevice.Caps.InputReportByteLength 8] := by rw [← hs1]
    obtain ⟨hl1, hlc, hlt⟩ := loadTerminateThread_untouched unpluggedEnv s1 (fun _ => rfl)
      (by rw [hc1]; exact hflag)
    generalize loadTerminateThread unpluggedEnv s1 = l at hl1 hlc hlt
    simp only [hl1, Bool.not_true, Bool.false_eq_true, if_false]
    obtain ⟨h1, h2, h3⟩ := ih l.2 (by rw [hlc, hc1]; exact hflag)
    refine ⟨h1, ?_, ?_⟩
    · rw [h2, hlt, ht1]
      simp [submitted, List.countP_append, List.countP_cons, Action.isReadFile]
      omega
    · rw [h3, hlt, ht1]
      simp [delivered, List.count_append, List.count_cons]

/-- C7 fails on the code: `NumberOfReads` is never looked at. With the
termination flag staying false and every read completing, for every `k` and
every `n` the reader started with `NumberOfReads = k` has, within `n + 1`
rounds, delivered `n` reports and submitted `n + 1` reads and is still in its
loop; with `n = k + 1` it has delivered more than `k` reports. -/
theorem AsynchReadThreadProc_ignores_NumberOfReads (k n : Nat) :
    (AsynchReadThreadProc healthyEnv (readerContext k false) (n + 1)).returned = none ∧
    delivered 9 (AsynchReadThreadProc healthyEnv (readerContext k false) (n + 1)).trace = n ∧
    submitted (AsynchReadThreadProc healthyEnv (readerContext k false) (n + 1)).trace = n + 1 := by
  have h := readLoop_healthy n
    (initialThreadState
      { readerContext k false with
        HidDevice := { (readerContext k false).HidDevice with
          InputReportBuffer := healthyEnv.malloc
            (readerContext k false).HidDevice.Caps.InputReportByteLength } })
    rfl rfl
  obtain ⟨ha, hb, hc⟩ := h
  exact ⟨ha, hb.trans (Nat.zero_add n), hc.trans (Nat.zero_add (n + 1))⟩

/-- C8 fails on the code: when every read submission fails hard
(`ERROR_DEVICE_NOT_CONNECTED`) and the termination flag is not set, the loop
is not left: for every `n`, after `n` rounds the thread has submitted `n`
reads, one after each failure, and has not returned. -/
theorem AsynchReadThreadProc_resubmits_after_failure (k n : Nat) :
    (AsynchReadThreadProc unpluggedEnv (readerContext k false) n).returned = none ∧
    submitted (AsynchReadThreadProc unpluggedEnv (readerContext k false) n).trace = n ∧
    delivered 9 (AsynchReadThreadProc unpluggedEnv (readerContext k false) n).trace = 0 := by
  have h := readLoop_unplugged n
    (initialThreadState
      { readerContext k false with
        HidDevice := { (readerContext k false).HidDevice with
          InputReportBuffer := unpluggedEnv.malloc
            (readerContext k false).HidDevice.Caps.InputReportByteLength } })
    rfl
  obtain ⟨ha, hb, hc⟩ := h
  exact ⟨ha, hb.trans (Nat.zero_add n), hc⟩

end HidCommands
